import Mathlib

/-!
Shallow embedding of the Facebook ads-archive listing parser.

The embedded code is the default request handler of the crawler router
(the extraction session: ad id, advertiser name, library id, sponsorship,
ad copy, creative-asset chain, CTA chain, CTA text, CTA domain, status),
together with the failed-request handler of the crawler.  DOM queries made
through the cheerio selector API are modelled by a `Doc` structure holding
exactly the query results the handler reads; the raw body HTML is kept as
a string for the regex-based inline-JSON patterns, which are embedded as
explicit scanners.  The host `URL` class (WHATWG) is modelled on the
fragment the handler exercises: `scheme://[userinfo@]host[:port][path]
[?query][#fragment]` with percent-decoded `searchParams`.
-/

namespace AdsArchive

/-! ## String utilities modelling the JavaScript primitives -/

/-- Occurrence of `n` as a contiguous run inside the second list. -/
def infixRun (n : List Char) : List Char → Bool
  | [] => n.isEmpty
  | c :: rest => n.isPrefixOf (c :: rest) || infixRun n rest

/-- Substring containment, modelling JavaScript `hay.includes(needle)`. -/
def substrOf (needle hay : String) : Bool :=
  infixRun needle.data hay.data

/-- Whitespace trim at both ends, modelling JavaScript `String.prototype.trim`. -/
def jsTrim (s : String) : String :=
  String.mk (((s.data.dropWhile Char.isWhitespace).reverse.dropWhile Char.isWhitespace).reverse)

/-- ASCII lower-casing of one character (the WHATWG URL host normalization). -/
def lowerAscii (c : Char) : Char :=
  if 'A' ≤ c ∧ c ≤ 'Z' then Char.ofNat (c.toNat + 32) else c

/-- JavaScript truthiness of a possibly-absent string field: `undefined`/`null`
and the empty string are falsy. -/
def truthy : Option String → Bool
  | none => false
  | some s => s != ""

/-- Backslash stripping, modelling `s.replace(/\\/g, ...)` with the empty replacement in the handler. -/
def unescape (s : String) : String :=
  String.mk (s.data.filter (fun c => c ≠ '\\'))

/-- Removal of the first occurrence of `pat`, modelling the JavaScript
`s.replace(pat, ...)` with the empty replacement with a plain-string pattern (which replaces only the
first occurrence, wherever it is). -/
def removeFirst (pat : List Char) : List Char → List Char
  | [] => []
  | c :: rest =>
    if pat.isPrefixOf (c :: rest) then (c :: rest).drop pat.length
    else c :: removeFirst pat rest

/-! ## Regex scanners embedded from the handler -/

/-- Scanner for the global regex `"key":"([^"]+)"`: returns every captured
group in scan order, resuming after each full match (the JavaScript `g`-flag
semantics), and advancing one character on a failed attempt.  `fuel` bounds
the recursion; it is instantiated with the input length plus one, which is
enough since every recursive call consumes at least one character. -/
def scanCaps (pat : List Char) : Nat → List Char → List (List Char)
  | 0, _ => []
  | _ + 1, [] => []
  | fuel + 1, c :: rest =>
    if pat.isPrefixOf (c :: rest) then
      let after := (c :: rest).drop pat.length
      let cap := after.takeWhile (fun ch => ch ≠ '"')
      if cap.isEmpty then scanCaps pat fuel rest
      else
        match after.drop cap.length with
        | '"' :: tail => cap :: scanCaps pat fuel tail
        | _ => scanCaps pat fuel rest
    else scanCaps pat fuel rest

/-- All captures of `bodyHtml.match(/"key":"([^"]+)"/g)`, as strings. -/
def jsonCaptures (key : String) (html : String) : List String :=
  let pat := ("\"" ++ key ++ "\":\"").data
  (scanCaps pat (html.data.length + 1) html.data).map String.mk

/-- First match of `/[?&]id=(\d+)/` over a character list. -/
def adIdScan : List Char → Option String
  | [] => none
  | c :: rest =>
    if (c = '?' ∨ c = '&') ∧ "id=".data.isPrefixOf rest then
      let ds := (rest.drop 3).takeWhile Char.isDigit
      if ds.isEmpty then adIdScan rest else some (String.mk ds)
    else adIdScan rest

/-- The ad identifier parsed from the source URL: `url.match(/[?&]id=(\d+)/)`,
capture on success and `null` otherwise. -/
def adIdOf (url : String) : Option String :=
  adIdScan url.data

/-- First match of `/id=(\d+)/` (unanchored), as used by the failed-request
handler in `main.js`. -/
def idScanAnywhere : List Char → Option String
  | [] => none
  | c :: rest =>
    if "id=".data.isPrefixOf (c :: rest) then
      let ds := ((c :: rest).drop 3).takeWhile Char.isDigit
      if ds.isEmpty then idScanAnywhere rest else some (String.mk ds)
    else idScanAnywhere rest

/-- First match of `/Library ID:\s*(\d+)/` over the library-id span text. -/
def libIdScan : List Char → Option String
  | [] => none
  | c :: rest =>
    if "Library ID:".data.isPrefixOf (c :: rest) then
      let afterWs := ((c :: rest).drop 11).dropWhile Char.isWhitespace
      let ds := afterWs.takeWhile Char.isDigit
      if ds.isEmpty then libIdScan rest else some (String.mk ds)
    else libIdScan rest

/-! ## URL model

Models the WHATWG `URL` constructor and `searchParams.get` on the fragment
the handler exercises.  Construction fails (the constructor throws) unless
the input has the shape `scheme://…` with an alphabetic scheme and a
non-empty host; the hostname is ASCII-lowercased, userinfo and port are
stripped; the query is the text between the first `?` and the fragment, and
`searchParams` splits it on `&` and `=` with `application/x-www-form-urlencoded`
decoding (`+` as space, `%XX` as the coded byte). -/

/-- Numeric value of a hex digit. -/
def hexVal (c : Char) : Option Nat :=
  if '0' ≤ c ∧ c ≤ '9' then some (c.toNat - 48)
  else if 'A' ≤ c ∧ c ≤ 'F' then some (c.toNat - 55)
  else if 'a' ≤ c ∧ c ≤ 'f' then some (c.toNat - 87)
  else none

/-- Percent-decoding with `+`-as-space (`application/x-www-form-urlencoded`). -/
def percentDecode : List Char → List Char
  | [] => []
  | '%' :: h1 :: h2 :: rest =>
    match hexVal h1, hexVal h2 with
    | some a, some b => Char.ofNat (16 * a + b) :: percentDecode rest
    | _, _ => '%' :: percentDecode (h1 :: h2 :: rest)
  | '+' :: rest => ' ' :: percentDecode rest
  | c :: rest => c :: percentDecode rest

/-- Splitting a character list on `&`. -/
def splitAmp : List Char → List (List Char)
  | [] => [[]]
  | '&' :: rest => [] :: splitAmp rest
  | c :: rest =>
    match splitAmp rest with
    | [] => [[c]]
    | g :: gs => (c :: g) :: gs

/-- One `key=value` pair of a query string, both sides decoded; a pair with
no `=` yields an empty value. -/
def parsePair (p : List Char) : String × String :=
  let k := p.takeWhile (fun c => c ≠ '=')
  let v := p.drop (k.length + 1)
  (String.mk (percentDecode k), String.mk (percentDecode v))

/-- The decoded `searchParams` list of a query string. -/
def parseQuery (q : List Char) : List (String × String) :=
  ((splitAmp q).filter (fun g => ¬ g.isEmpty)).map parsePair

/-- Characters after the last `@` (strips URL userinfo). -/
def afterLastAt (l : List Char) : List Char :=
  (l.reverse.takeWhile (fun c => c ≠ '@')).reverse

/-- The parts of a parsed URL that the handler reads. -/
structure URLObj where
  hostname : String
  searchParams : List (String × String)
  deriving DecidableEq, Repr

/-- The WHATWG `URL` constructor on the fragment used by the handler; `none`
models the constructor throwing. -/
def parseURL (s : String) : Option URLObj :=
  let cs := s.data
  let scheme := cs.takeWhile (fun c => c ≠ ':')
  if scheme.isEmpty ∨ ¬ scheme.all Char.isAlpha then none
  else
    let rest := cs.drop scheme.length
    if "://".data.isPrefixOf rest then
      let rest := rest.drop 3
      let authority := rest.takeWhile (fun c => c ≠ '/' ∧ c ≠ '?' ∧ c ≠ '#')
      let host := (afterLastAt authority).takeWhile (fun c => c ≠ ':')
      if host.isEmpty then none
      else
        let afterAuth := rest.drop authority.length
        let beforeHash := afterAuth.takeWhile (fun c => c ≠ '#')
        let afterQ := beforeHash.dropWhile (fun c => c ≠ '?')
        let q := afterQ.drop 1
        some { hostname := String.mk (host.map lowerAscii), searchParams := parseQuery q }
    else none

/-- Lookup of `searchParams.get(key)`: first value with the key, else `null`. -/
def searchGet (u : URLObj) (key : String) : Option String :=
  (u.searchParams.find? (fun kv => kv.1 = key)).map (fun kv => kv.2)

/-! ## Document model

One fetched page, as seen through the selector queries the handler makes.
Each field holds the result of one cheerio query against the parsed markup,
in document order where a list is involved; `bodyHtml` is the serialized
body used by the raw-text regex patterns. -/

structure Doc where
  /-- Body of the page: the target of the raw-text regex patterns
  (`$("body").html()`, with the empty default). -/
  bodyHtml : String
  /-- The `src` attribute of the first video element, when present. -/
  videoSrc : Option String
  /-- The `poster` attribute of the first video element, when present. -/
  videoPoster : Option String
  /-- The `src` attributes of images inside hover-interaction anchors
  (`a[data-lynx-mode="hover"] img` having a `src`), in document order. -/
  lynxImgSrcs : List String
  /-- The images inside the tagged ad-content containers
  (`[data-testid="ad-content-body-video-container"] img` and the image
  variant), in document order; `none` entries are images with no `src`. -/
  adContentImgs : List (Option String)
  /-- The `src` attributes of all images having a `src`, in document order. -/
  imgSrcs : List String
  /-- Text of the first span under a facebook.com anchor
  (the first span under `a[href*="facebook.com/"]`). -/
  advertiserSpanText : String
  /-- The `alt` attribute of the first `img.img`, when present. -/
  imgAltText : Option String
  /-- Concatenated text of spans containing "Library ID:". -/
  libraryIdText : String
  /-- The number of spans containing "Sponsored". -/
  sponsoredSpanCount : Nat
  /-- Texts of the ad-copy candidate elements (`._7jyr span, ._4ik4._4ik5`),
  in document order. -/
  adTextCandidates : List String
  /-- The `href` attributes of all anchors having an `href`, in document order. -/
  anchorHrefs : List String
  /-- Text of the first CTA button candidate
  (`div[role="button"]` containing "Learn", "Shop" or "More"). -/
  ctaButtonText : String
  deriving DecidableEq, Repr

/-! ## Field extractors -/

/-- Advertiser name: link-span text when non-empty after trimming, else the
alt text of the first image, else the literal fallback
(`advertiserName || altText || "Unknown"`, with JavaScript falsiness). -/
def advertiserOf (d : Doc) : Option String :=
  let primary := jsTrim d.advertiserSpanText
  if primary ≠ "" then some primary
  else
    match d.imgAltText with
    | some a => if a ≠ "" then some a else some "Unknown"
    | none => some "Unknown"

/-- Library identifier: `/Library ID:\s*(\d+)/` over the span text, else `null`. -/
def libraryIdOf (d : Doc) : Option String :=
  libIdScan d.libraryIdText.data

/-- Sponsorship flag: a positive count of spans containing "Sponsored". -/
def sponsoredOf (d : Doc) : Bool :=
  d.sponsoredSpanCount > 0

/-- Ad copy: first candidate longer than 20 characters, trimmed, empty
result demoted to `null` (`adTextElement.text().trim() || null`). -/
def adTextOf (d : Doc) : Option String :=
  match (d.adTextCandidates.filter (fun t => t.length > 20)).head? with
  | some t => if jsTrim t = "" then none else some (jsTrim t)
  | none => none

/-- Creative type tags of the output record (`result.ad_type`). -/
inductive AdType
  | image
  | video
  | video_thumbnail
  | unknown
  deriving DecidableEq, Repr

/-- The running value of the creative chain: the `creative_url` assigned so
far (JavaScript: possibly empty) paired with the `ad_type` assigned so far. -/
abbrev Cand := Option String × AdType

/-- Pattern 0a: the `src` of the video element, kept when it references the
asset host (`if (videoSrc && videoSrc.includes("fbcdn"))`). -/
def creativeP0a (d : Doc) (s : Cand) : Cand :=
  match d.videoSrc with
  | some vs => if vs ≠ "" ∧ substrOf "fbcdn" vs then (some vs, .video) else s
  | none => s

/-- Pattern 0b: first image under a hover-interaction anchor whose `src`
references the asset host, rejected on the low-resolution token
(`if (adLinkImg && !adLinkImg.includes("60x60"))`); guarded by the absence
of an earlier value. -/
def creativeP0b (d : Doc) (s : Cand) : Cand :=
  if truthy s.1 then s
  else
    match (d.lynxImgSrcs.filter (fun i => substrOf "fbcdn" i)).head? with
    | some img => if img ≠ "" ∧ ¬ substrOf "60x60" img then (some img, .image) else s
    | none => s

/-- Pattern 0c: first image in a tagged ad-content container, kept when its
`src` references the asset host and lacks the low-resolution token; guarded. -/
def creativeP0c (d : Doc) (s : Cand) : Cand :=
  if truthy s.1 then s
  else
    match d.adContentImgs.head? with
    | some (some img) =>
      if img ≠ "" ∧ substrOf "fbcdn" img ∧ ¬ substrOf "60x60" img then (some img, .image) else s
    | _ => s

/-- Pattern 1: last `"resized_image_url"` capture of the body HTML,
backslash-stripped.  NOTE: in the source this pattern is NOT guarded by
`if (!result.creative_url)`, so it overwrites any value set by patterns
0a-0c. -/
def creativeP1 (d : Doc) (s : Cand) : Cand :=
  match (jsonCaptures "resized_image_url" d.bodyHtml).getLast? with
  | some cap => (some (unescape cap), .image)
  | none => s

/-- Pattern 2: last `"video_hd_url"` capture, backslash-stripped; guarded. -/
def creativeP2 (d : Doc) (s : Cand) : Cand :=
  if truthy s.1 then s
  else
    match (jsonCaptures "video_hd_url" d.bodyHtml).getLast? with
    | some cap => (some (unescape cap), .video)
    | none => s

/-- Pattern 3: first image whose `src` references the asset host and lacks
the low-resolution token (images with "fbcdn" in `src`, excluding "60x60");
guarded. -/
def creativeP3 (d : Doc) (s : Cand) : Cand :=
  if truthy s.1 then s
  else
    match (d.imgSrcs.filter (fun i => substrOf "fbcdn" i && ! substrOf "60x60" i)).head? with
    | some img => if img ≠ "" then (some img, .image) else s
    | none => s

/-- Pattern 4: the `poster` attribute of the video element; guarded. -/
def creativeP4 (d : Doc) (s : Cand) : Cand :=
  if truthy s.1 then s
  else
    match d.videoPoster with
    | some p => if p ≠ "" then (some p, .video_thumbnail) else s
    | none => s

/-- The give-up default of the creative chain: when the accumulated value is
falsy, `creative_url = null` and `ad_type` unknown. -/
def creativeDefault (s : Cand) : Cand :=
  if truthy s.1 then s else (none, .unknown)

/-- The complete creative-asset chain, ending with the give-up default. -/
def creativeChain (d : Doc) : Cand :=
  creativeDefault (creativeP4 d (creativeP3 d (creativeP2 d (creativeP1 d
    (creativeP0c d (creativeP0b d (creativeP0a d (none, .unknown))))))))

/-- The first anchor whose `href` contains the outbound-redirect endpoint
(`a[href*="l.facebook.com/l.php"]`). -/
def firstRedirectAnchor (d : Doc) : Option String :=
  (d.anchorHrefs.filter (fun h => substrOf "l.facebook.com/l.php" h)).head?

/-- The first anchor with an absolute external destination
(`a[href^="http"]` excluding `[href*="facebook.com"]`). -/
def firstExternalAnchor (d : Doc) : Option String :=
  (d.anchorHrefs.filter
    (fun h => "http".data.isPrefixOf h.data && ! substrOf "facebook.com" h)).head?

/-- CTA pattern 1: last `"link_url"` capture, backslash-stripped. -/
def ctaPat1 (d : Doc) (c : Option String) : Option String :=
  match (jsonCaptures "link_url" d.bodyHtml).getLast? with
  | some cap => some (unescape cap)
  | none => c

/-- CTA pattern 2: redirect anchor parsed as a URL, its decoded `u`
parameter taken when truthy; a parse failure (the constructor throwing) is
swallowed and leaves the value unchanged; guarded. -/
def ctaPat2 (d : Doc) (c : Option String) : Option String :=
  if truthy c then c
  else
    match firstRedirectAnchor d with
    | some link =>
      if link ≠ "" then
        match parseURL link with
        | some uo =>
          match searchGet uo "u" with
          | some t => if t ≠ "" then some t else c
          | none => c
        | none => c
      else c
    | none => c

/-- CTA pattern 3: first external anchor; guarded. -/
def ctaPat3 (d : Doc) (c : Option String) : Option String :=
  if truthy c then c
  else
    match firstExternalAnchor d with
    | some h => if h ≠ "" then some h else c
    | none => c

/-- The give-up default of the CTA chain: `null` when the value is falsy. -/
def ctaDefault (c : Option String) : Option String :=
  if truthy c then c else none

/-- The complete CTA chain, ending with the give-up default. -/
def ctaChain (d : Doc) : Option String :=
  ctaDefault (ctaPat3 d (ctaPat2 d (ctaPat1 d none)))

/-- CTA button text, trimmed, empty demoted to `null`. -/
def ctaTextOf (d : Doc) : Option String :=
  if jsTrim d.ctaButtonText = "" then none else some (jsTrim d.ctaButtonText)

/-- Hostname with the first occurrence of `"www."` removed, modelling
`urlObj.hostname.replace("www.", ...)` with the empty replacement. -/
def stripWwwFirst (host : String) : String :=
  String.mk (removeFirst "www.".data host.data)

/-- CTA domain derivation: for a truthy CTA URL, the parsed hostname with
the first `"www."` removed; a parse failure yields `null`; a falsy CTA URL
leaves the field unset. -/
def ctaDomainOf : Option String → Option String
  | none => none
  | some cu =>
    if cu = "" then none
    else
      match parseURL cu with
      | some uo => some (stripWwwFirst uo.hostname)
      | none => none

/-! ## Record assembly and extraction session -/

/-- The output record pushed to the dataset by the default handler.  `none`
models a field that is absent or `null` in the JavaScript object. -/
structure AdRecord where
  ad_archive_url : String
  crawled_at : String
  ad_id : Option String := none
  advertiser_name : Option String := none
  library_id : Option String := none
  is_sponsored : Option Bool := none
  ad_text : Option String := none
  creative_url : Option String := none
  ad_type : Option AdType := none
  cta_url : Option String := none
  cta_text : Option String := none
  cta_domain : Option String := none
  status : Option String := none
  error : Option String := none
  error_stack : Option String := none
  deriving DecidableEq, Repr

/-- The record as initialized before the `try` block: identity fields only. -/
def initRecord (url now : String) : AdRecord :=
  { ad_archive_url := url, crawled_at := now }

/-- Step 1: ad identifier from the source URL. -/
def stepAdId (url : String) (r : AdRecord) : AdRecord :=
  { r with ad_id := adIdOf url }

/-- Step 2: advertiser name. -/
def stepAdvertiser (d : Doc) (r : AdRecord) : AdRecord :=
  { r with advertiser_name := advertiserOf d }

/-- Step 3: library identifier. -/
def stepLibraryId (d : Doc) (r : AdRecord) : AdRecord :=
  { r with library_id := libraryIdOf d }

/-- Step 4: sponsorship flag. -/
def stepSponsored (d : Doc) (r : AdRecord) : AdRecord :=
  { r with is_sponsored := some (sponsoredOf d) }

/-- Step 5: ad copy. -/
def stepAdText (d : Doc) (r : AdRecord) : AdRecord :=
  { r with ad_text := adTextOf d }

/-- Step 6: the creative-asset chain. -/
def stepCreative (d : Doc) (r : AdRecord) : AdRecord :=
  { r with creative_url := (creativeChain d).1, ad_type := some (creativeChain d).2 }

/-- Step 7: the CTA chain. -/
def stepCta (d : Doc) (r : AdRecord) : AdRecord :=
  { r with cta_url := ctaChain d }

/-- Step 8: CTA button text. -/
def stepCtaText (d : Doc) (r : AdRecord) : AdRecord :=
  { r with cta_text := ctaTextOf d }

/-- Step 9: CTA domain, derived from the CTA URL of the record. -/
def stepCtaDomain (r : AdRecord) : AdRecord :=
  { r with cta_domain := ctaDomainOf r.cta_url }

/-- The body of the `try` block, in source order. -/
def trySteps (url : String) (d : Doc) : List (AdRecord → AdRecord) :=
  [stepAdId url, stepAdvertiser d, stepLibraryId d, stepSponsored d, stepAdText d,
   stepCreative d, stepCta d, stepCtaText d, stepCtaDomain]

/-- Sequential execution of extraction steps on the accumulated record. -/
def runSteps (steps : List (AdRecord → AdRecord)) (r : AdRecord) : AdRecord :=
  steps.foldl (fun acc f => f acc) r

/-- The fault-free extraction session for one URL: all steps run, then the
record is finalized with status "SUCCESS" and pushed. -/
def processAd (url now : String) (d : Doc) : AdRecord :=
  { runSteps (trySteps url d) (initRecord url now) with status := some "SUCCESS" }

/-- The extraction session when an unexpected fault is raised after `k`
completed steps: the `catch` block stamps the accumulated record with
status "ERROR", the fault message and stack, and pushes it. -/
def processAdFault (url now : String) (d : Doc) (k : Nat) (msg stack : String) : AdRecord :=
  { runSteps ((trySteps url d).take k) (initRecord url now) with
    status := some "ERROR", error := some msg, error_stack := some stack }

/-- The minimal record pushed by the failed-request handler of the crawler in
`main.js` (note its different field names and its unanchored `/id=(\d+)/`). -/
structure FailedRecord where
  status : String
  url : String
  ad_id : Option String
  error : String
  timestamp : String
  deriving DecidableEq, Repr

/-- The record the failed-request handler pushes for a URL whose fetch failed. -/
def failedRequestRecord (url msg now : String) : FailedRecord :=
  { status := "FAILED", url := url, ad_id := idScanAnywhere url.data, error := msg,
    timestamp := now }

/-- How the fetch collaborator hands one URL to this engine: a fetched
document (optionally with an unexpected fault raised after `k` extraction
steps), or a retry-exhausted transport failure. -/
inductive FetchOutcome
  | ok (d : Doc)
  | fault (d : Doc) (k : Nat) (msg stack : String)
  | fetchFailed (msg : String)
  deriving Repr

/-- A record pushed to the dataset sink: either a handler record or a
failed-request record. -/
inductive PushedRecord
  | ad (r : AdRecord)
  | failed (f : FailedRecord)
  deriving DecidableEq, Repr

/-- The status carried by a pushed record. -/
def pushedStatus : PushedRecord → String
  | .ad r => r.status.getD ""
  | .failed f => f.status

/-- One terminal handling of one request: every path pushes exactly the
records listed here. -/
def handleOne : String × String × FetchOutcome → List PushedRecord
  | (url, now, .ok d) => [.ad (processAd url now d)]
  | (url, now, .fault d k m s) => [.ad (processAdFault url now d k m s)]
  | (url, now, .fetchFailed m) => [.failed (failedRequestRecord url m now)]

/-- The dataset contents after processing a batch of requests. -/
def processAll (reqs : List (String × String × FetchOutcome)) : List PushedRecord :=
  reqs.foldr (fun x acc => handleOne x ++ acc) []

/-! ## Structural lemmas -/

/-- The fault-free session in closed form: each field of the pushed record
is the value of its extractor. -/
theorem processAd_eq (url now : String) (d : Doc) :
    processAd url now d =
      { ad_archive_url := url, crawled_at := now, ad_id := adIdOf url,
        advertiser_name := advertiserOf d, library_id := libraryIdOf d,
        is_sponsored := some (sponsoredOf d), ad_text := adTextOf d,
        creative_url := (creativeChain d).1, ad_type := some (creativeChain d).2,
        cta_url := ctaChain d, cta_text := ctaTextOf d,
        cta_domain := ctaDomainOf (ctaChain d),
        status := some "SUCCESS", error := none, error_stack := none } :=
  rfl

/-- Decomposition of a batch around one request: the records of each URL come
from its own handling alone. -/
theorem processAll_append (l1 l2 : List (String × String × FetchOutcome))
    (x : String × String × FetchOutcome) :
    processAll (l1 ++ x :: l2) = processAll l1 ++ handleOne x ++ processAll l2 := by
  induction l1 with
  | nil => simp [processAll]
  | cons y ys ih =>
    simp only [processAll, List.cons_append, List.foldr_cons] at ih ⊢
    rw [ih]
    simp [List.append_assoc]

/-- The identity fields survive a fault after any number of completed steps:
no extraction step writes them. -/
theorem processAdFault_identity (url now : String) (d : Doc) (k : Nat) (msg stack : String) :
    (processAdFault url now d k msg stack).ad_archive_url = url ∧
    (processAdFault url now d k msg stack).crawled_at = now := by
  rcases k with _ | _ | _ | _ | _ | _ | _ | _ | _ | k
  case succ.succ.succ.succ.succ.succ.succ.succ.succ =>
    simp only [processAdFault, trySteps, List.take_succ_cons, List.take_nil]
    exact ⟨rfl, rfl⟩
  all_goals exact ⟨rfl, rfl⟩

/-- An element selected by `head?` of a filtered list satisfies the filter. -/
theorem filter_head?_pred {α : Type} {p : α → Bool} {l : List α} {a : α}
    (h : (l.filter p).head? = some a) : p a = true := by
  rcases hF : l.filter p with _ | ⟨b, t⟩
  · rw [hF] at h; simp at h
  · rw [hF] at h
    simp only [List.head?_cons, Option.some.injEq] at h
    have hm : b ∈ l.filter p := by rw [hF]; exact List.mem_cons_self b t
    rw [← h]
    exact (List.mem_filter.mp hm).2

/-- A CTA URL produced by the chain is never the empty string: the final
default demotes falsy values to `null`. -/
theorem ctaDefault_some_ne_empty {c : Option String} {cu : String}
    (h : ctaDefault c = some cu) : cu ≠ "" := by
  unfold ctaDefault at h
  split at h
  · next ht => subst h; simpa [truthy] using ht
  · exact absurd h (by simp)

/-- A CTA URL produced by the chain is never the empty string. -/
theorem ctaChain_some_ne_empty {d : Doc} {cu : String} (h : ctaChain d = some cu) :
    cu ≠ "" :=
  ctaDefault_some_ne_empty h

/-! ## Concrete documents used as inputs of witnesses and counterexamples -/

/-- A page with no queryable content at all. -/
def emptyDoc : Doc :=
  { bodyHtml := "", videoSrc := none, videoPoster := none, lynxImgSrcs := [],
    adContentImgs := [], imgSrcs := [], advertiserSpanText := "", imgAltText := none,
    libraryIdText := "", sponsoredSpanCount := 0, adTextCandidates := [],
    anchorHrefs := [], ctaButtonText := "" }

/-- A page carrying both a valid native-video source (tier 1) and an inline
resized-image payload (tier 4) in the body HTML. -/
def videoAndPayloadDoc : Doc :=
  { emptyDoc with
    bodyHtml := "x\"resized_image_url\":\"https:\\/\\/scontent.fbcdn.net\\/hq.jpg\"x",
    videoSrc := some "https://video.fbcdn.net/v/ad.mp4" }

/-- A page whose only creative candidate is an inline resized-image payload
whose URL carries the low-resolution dimension token. -/
def thumbPayloadDoc : Doc :=
  { emptyDoc with
    bodyHtml := "x\"resized_image_url\":\"https:\\/\\/scontent.fbcdn.net\\/p60x60\\/th.jpg\"x" }

/-- A page whose only creative candidate is a full-resolution hover-link
image. -/
def domOnlyDoc : Doc :=
  { emptyDoc with lynxImgSrcs := ["https://scontent.fbcdn.net/full.jpg"] }

/-- A page whose only CTA candidate is an outbound-redirect anchor with a
percent-encoded target. -/
def redirectDoc : Doc :=
  { emptyDoc with
    anchorHrefs := ["https://l.facebook.com/l.php?u=https%3A%2F%2Fexample.com%2Fpath&h=AT0x"] }

/-- A page whose only CTA candidate is a direct external anchor whose
hostname carries a non-leading "www." label. -/
def innerWwwDoc : Doc :=
  { emptyDoc with anchorHrefs := ["https://foo.www.example.com/x"] }

/-! ## Soundness lemmas for the creative chain -/

/-- A value surviving the give-up default was already the accumulated value. -/
theorem creativeDefault_some {s : Cand} {cu : String}
    (h : (creativeDefault s).1 = some cu) : s.1 = some cu := by
  unfold creativeDefault at h
  split at h
  · exact h
  · exact absurd h (by simp)

/-- The hover-link tier only introduces values free of the low-resolution
token. -/
theorem creativeP0b_no_thumb {d : Doc} {s : Cand} {cu : String}
    (h : (creativeP0b d s).1 = some cu) :
    s.1 = some cu ∨ substrOf "60x60" cu = false := by
  unfold creativeP0b at h
  split at h
  · exact Or.inl h
  · split at h
    · next img heq =>
      split at h
      · next hc =>
        obtain rfl : img = cu := by simpa using h
        exact Or.inr (by simpa using hc.2)
      · exact Or.inl h
    · exact Or.inl h

/-- The tagged-container tier only introduces values free of the
low-resolution token. -/
theorem creativeP0c_no_thumb {d : Doc} {s : Cand} {cu : String}
    (h : (creativeP0c d s).1 = some cu) :
    s.1 = some cu ∨ substrOf "60x60" cu = false := by
  unfold creativeP0c at h
  split at h
  · exact Or.inl h
  · split at h
    · next img heq =>
      split at h
      · next hc =>
        obtain rfl : img = cu := by simpa using h
        exact Or.inr (by simpa using hc.2.2)
      · exact Or.inl h
    · exact Or.inl h

/-- The asset-host fallback tier only introduces values free of the
low-resolution token. -/
theorem creativeP3_no_thumb {d : Doc} {s : Cand} {cu : String}
    (h : (creativeP3 d s).1 = some cu) :
    s.1 = some cu ∨ substrOf "60x60" cu = false := by
  unfold creativeP3 at h
  split at h
  · exact Or.inl h
  · split at h
    · next img heq =>
      split at h
      · have hp := filter_head?_pred heq
        obtain rfl : img = cu := by simpa using h
        simp only [Bool.and_eq_true, Bool.not_eq_true'] at hp
        exact Or.inr hp.2
      · exact Or.inl h
    · exact Or.inl h

/-! ## Claims -/

/-- C1: the creative chain is specified to stop at the first tier that
yields a validated value, in particular native video (tier 1) over the
inline payloads.  The code violates this: the inline resized-image payload
pattern lacks the guard on an already-found value and overwrites the
native-video source found by tier 1.  This theorem evaluates the handler at
a failing input: a page with a valid native-video source (referencing the
asset host) and an inline resized-image payload, where the pushed record
carries the payload image, not the video. -/
theorem creative_priority_overwritten_by_payload :
    videoAndPayloadDoc.videoSrc = some "https://video.fbcdn.net/v/ad.mp4" ∧
    substrOf "fbcdn" "https://video.fbcdn.net/v/ad.mp4" = true ∧
    (processAd "https://www.facebook.com/ads/archive/render_ad/?id=123&access_token=X"
      "2026-02-01T00:00:00.000Z" videoAndPayloadDoc).creative_url =
      some "https://scontent.fbcdn.net/hq.jpg" ∧
    (processAd "https://www.facebook.com/ads/archive/render_ad/?id=123&access_token=X"
      "2026-02-01T00:00:00.000Z" videoAndPayloadDoc).ad_type = some AdType.image ∧
    (processAd "https://www.facebook.com/ads/archive/render_ad/?id=123&access_token=X"
      "2026-02-01T00:00:00.000Z" videoAndPayloadDoc).creative_url ≠
      videoAndPayloadDoc.videoSrc := by
  decide

/-- C2 counterexample: an image URL carrying the low-resolution dimension
token IS selected as the creative when it arrives through the inline
resized-image payload tier, which applies no thumbnail filter. -/
theorem thumbnail_token_selected_by_payload_tier :
    (processAd "u" "t" thumbPayloadDoc).creative_url =
      some "https://scontent.fbcdn.net/p60x60/th.jpg" ∧
    substrOf "60x60" "https://scontent.fbcdn.net/p60x60/th.jpg" = true ∧
    (processAd "u" "t" thumbPayloadDoc).ad_type = some AdType.image := by
  decide

/-- C2 amended: an image URL containing the low-resolution dimension token
is never selected by the DOM image tiers (hover-link, tagged-container,
asset-host fallback).  Stated for documents whose inline payloads and video
attributes yield no candidate, so that the creative can only come from
those filtered tiers. -/
theorem thumbnail_excluded_by_dom_tiers (u n : String) (d : Doc) (cu : String)
    (h1 : jsonCaptures "resized_image_url" d.bodyHtml = [])
    (h2 : jsonCaptures "video_hd_url" d.bodyHtml = [])
    (h3 : d.videoSrc = none) (h4 : d.videoPoster = none)
    (h5 : (processAd u n d).creative_url = some cu) :
    substrOf "60x60" cu = false := by
  have h5 : (creativeChain d).1 = some cu := h5
  unfold creativeChain at h5
  have e0a : ∀ s, creativeP0a d s = s := fun s => by simp [creativeP0a, h3]
  have e1 : ∀ s, creativeP1 d s = s := fun s => by simp [creativeP1, h1]
  have e2 : ∀ s, creativeP2 d s = s := fun s => by simp [creativeP2, h2]
  have e4 : ∀ s, creativeP4 d s = s := fun s => by simp [creativeP4, h4]
  rw [e0a, e1, e2, e4] at h5
  have h6 := creativeDefault_some h5
  rcases creativeP3_no_thumb h6 with h7 | h7
  · rcases creativeP0c_no_thumb h7 with h8 | h8
    · rcases creativeP0b_no_thumb h8 with h9 | h9
      · exact absurd h9 (by simp)
      · exact h9
    · exact h8
  · exact h7

/-- C2 amended, witness: on a page whose only candidate is a hover-link
image, the selected creative is free of the low-resolution token. -/
theorem thumbnail_excluded_by_dom_tiers_witness :
    substrOf "60x60" "https://scontent.fbcdn.net/full.jpg" = false :=
  thumbnail_excluded_by_dom_tiers "u" "t" domOnlyDoc
    "https://scontent.fbcdn.net/full.jpg" rfl rfl rfl rfl (by decide)

/-- C3 counterexample: two invocations of the engine on byte-identical page
content do not yield byte-identical records, because the capture timestamp
is taken from the wall clock at record creation. -/
theorem records_differ_across_invocations :
    processAd "u" "2026-02-01T00:00:00.000Z" emptyDoc ≠
      processAd "u" "2026-02-01T00:00:00.001Z" emptyDoc := by
  decide

/-- C3 amended: the engine is deterministic given the capture timestamp:
for the same URL and document, every field other than `crawled_at` is
independent of the invocation time. -/
theorem deterministic_except_timestamp (url t1 t2 : String) (d : Doc) :
    (processAd url t1 d).ad_archive_url = (processAd url t2 d).ad_archive_url ∧
    (processAd url t1 d).ad_id = (processAd url t2 d).ad_id ∧
    (processAd url t1 d).advertiser_name = (processAd url t2 d).advertiser_name ∧
    (processAd url t1 d).library_id = (processAd url t2 d).library_id ∧
    (processAd url t1 d).is_sponsored = (processAd url t2 d).is_sponsored ∧
    (processAd url t1 d).ad_text = (processAd url t2 d).ad_text ∧
    (processAd url t1 d).creative_url = (processAd url t2 d).creative_url ∧
    (processAd url t1 d).ad_type = (processAd url t2 d).ad_type ∧
    (processAd url t1 d).cta_url = (processAd url t2 d).cta_url ∧
    (processAd url t1 d).cta_text = (processAd url t2 d).cta_text ∧
    (processAd url t1 d).cta_domain = (processAd url t2 d).cta_domain ∧
    (processAd url t1 d).status = (processAd url t2 d).status ∧
    (processAd url t1 d).error = (processAd url t2 d).error ∧
    (processAd url t1 d).error_stack = (processAd url t2 d).error_stack :=
  ⟨rfl, rfl, rfl, rfl, rfl, rfl, rfl, rfl, rfl, rfl, rfl, rfl, rfl, rfl⟩

/-- C5: whenever the extraction session completes without a fault, the
pushed record has status SUCCESS, for every document, hence regardless of
how many content fields came back absent. -/
theorem status_success_regardless_of_absence (url now : String) (d : Doc) :
    (processAd url now d).status = some "SUCCESS" :=
  rfl

/-- C9 counterexample: on a page where neither the link-span tier nor the
alt-text tier yields a value, the advertiser-name field of the record is
the substitute content string "Unknown", not an absent value. -/
theorem advertiser_placeholder_not_absent :
    jsTrim emptyDoc.advertiserSpanText = "" ∧
    emptyDoc.imgAltText = none ∧
    (processAd "u" "t" emptyDoc).advertiser_name = some "Unknown" ∧
    (processAd "u" "t" emptyDoc).advertiser_name ≠ none := by
  decide

/-- C9 amended: when neither the link-span tier nor the alt-text tier
yields a non-empty value, the advertiser-name field is set to the literal
placeholder "Unknown". -/
theorem advertiser_fallback_is_unknown (url now : String) (d : Doc)
    (h1 : jsTrim d.advertiserSpanText = "")
    (h2 : d.imgAltText = none ∨ d.imgAltText = some "") :
    (processAd url now d).advertiser_name = some "Unknown" := by
  show advertiserOf d = some "Unknown"
  rcases h2 with h2 | h2 <;> simp [advertiserOf, h1, h2]

/-- C9 amended, witness: the placeholder on a content-free page. -/
theorem advertiser_fallback_is_unknown_witness :
    (processAd "u" "t" emptyDoc).advertiser_name = some "Unknown" :=
  advertiser_fallback_is_unknown "u" "t" emptyDoc rfl (Or.inl rfl)

/-- C4: every terminal handling of a URL pushes exactly one record, always
carrying a status among SUCCESS, ERROR and FAILED, matched to the path
taken: the fault-free path pushes SUCCESS, the catch path pushes ERROR, and
a fetch-failed URL is pushed as the minimal failed-request record (built
without invoking any extractor). -/
theorem one_record_per_url_with_status (url now : String) (o : FetchOutcome) :
    ∃ p, handleOne (url, now, o) = [p] ∧
      (pushedStatus p = "SUCCESS" ∨ pushedStatus p = "ERROR" ∨ pushedStatus p = "FAILED") ∧
      (∀ d, o = .ok d → pushedStatus p = "SUCCESS") ∧
      (∀ d k m s, o = .fault d k m s → pushedStatus p = "ERROR") ∧
      (∀ m, o = .fetchFailed m → p = .failed (failedRequestRecord url m now)) := by
  cases o with
  | ok d =>
    refine ⟨_, rfl, Or.inl rfl, fun _ _ => rfl, fun d9 k9 m9 s9 h => ?_, fun m9 h => ?_⟩ <;>
      cases h
  | fault d k m s =>
    refine ⟨_, rfl, Or.inr (Or.inl rfl), fun d9 h => ?_, fun _ _ _ _ _ => rfl,
      fun m9 h => ?_⟩ <;> cases h
  | fetchFailed m =>
    refine ⟨_, rfl, Or.inr (Or.inr rfl), fun d9 h => ?_, fun d9 k9 m9 s9 h => ?_,
      fun m9 h => ?_⟩
    · cases h
    · cases h
    · cases h
      rfl

/-- C4 witness: a fetch-failed URL yields exactly one record, with status
FAILED. -/
theorem one_record_per_url_with_status_witness :
    ∃ p, handleOne ("u", "t", .fetchFailed "net::ERR_TIMED_OUT") = [p] ∧
      pushedStatus p = "FAILED" := by
  obtain ⟨p, hp, _, _, _, h5⟩ :=
    one_record_per_url_with_status "u" "t" (.fetchFailed "net::ERR_TIMED_OUT")
  refine ⟨p, hp, ?_⟩
  rw [h5 "net::ERR_TIMED_OUT" rfl]
  rfl

/-- C6: a fault raised inside the extraction session is caught there: the
record for that URL is still emitted, with status ERROR, the fault message
as the error field, and the identity fields intact; and a batch decomposes
URL by URL, so one URL never affects the records of the others. -/
theorem fault_contained_to_one_url (url now : String) (d : Doc) (k : Nat) (msg stack : String) :
    (processAdFault url now d k msg stack).status = some "ERROR" ∧
    (processAdFault url now d k msg stack).error = some msg ∧
    (processAdFault url now d k msg stack).ad_archive_url = url ∧
    (processAdFault url now d k msg stack).crawled_at = now ∧
    ∀ (l1 l2 : List (String × String × FetchOutcome)) (x : String × String × FetchOutcome),
      processAll (l1 ++ x :: l2) = processAll l1 ++ handleOne x ++ processAll l2 :=
  ⟨rfl, rfl, (processAdFault_identity url now d k msg stack).1,
   (processAdFault_identity url now d k msg stack).2, processAll_append⟩

/-- C10: the ERROR record pushed by the catch path is the accumulated
record, so every content field populated by a step completed before the
fault (ad id after step 1, advertiser name after step 2, library id after
step 3, creative fields after step 6) equals its value on the fault-free
path, alongside status ERROR and the fault message. -/
theorem fault_retains_populated_fields (url now : String) (d : Doc) (k : Nat)
    (msg stack : String) :
    (1 ≤ k →
      (processAdFault url now d k msg stack).ad_id = (processAd url now d).ad_id) ∧
    (2 ≤ k →
      (processAdFault url now d k msg stack).advertiser_name =
        (processAd url now d).advertiser_name) ∧
    (3 ≤ k →
      (processAdFault url now d k msg stack).library_id = (processAd url now d).library_id) ∧
    (4 ≤ k →
      (processAdFault url now d k msg stack).is_sponsored = (processAd url now d).is_sponsored) ∧
    (5 ≤ k →
      (processAdFault url now d k msg stack).ad_text = (processAd url now d).ad_text) ∧
    (6 ≤ k →
      (processAdFault url now d k msg stack).creative_url =
        (processAd url now d).creative_url) ∧
    (6 ≤ k →
      (processAdFault url now d k msg stack).ad_type = (processAd url now d).ad_type) ∧
    (7 ≤ k →
      (processAdFault url now d k msg stack).cta_url = (processAd url now d).cta_url) ∧
    (8 ≤ k →
      (processAdFault url now d k msg stack).cta_text = (processAd url now d).cta_text) ∧
    (9 ≤ k →
      (processAdFault url now d k msg stack).cta_domain = (processAd url now d).cta_domain) ∧
    (processAdFault url now d k msg stack).status = some "ERROR" ∧
    (processAdFault url now d k msg stack).error = some msg := by
  rcases k with _ | _ | _ | _ | _ | _ | _ | _ | _ | k <;>
    refine ⟨fun h => ?_, fun h => ?_, fun h => ?_, fun h => ?_, fun h => ?_, fun h => ?_,
      fun h => ?_, fun h => ?_, fun h => ?_, fun h => ?_, rfl, rfl⟩ <;>
      first
      | rfl
      | (exfalso; omega)
      | (simp only [processAdFault, trySteps, List.take_succ_cons, List.take_nil]; rfl)

/-- C10 witness: a fault after every step retains the previously extracted
fields. -/
theorem fault_retains_populated_fields_witness :
    (processAdFault "u" "t" videoAndPayloadDoc 9 "boom" "stack").ad_id =
      (processAd "u" "t" videoAndPayloadDoc).ad_id ∧
    (processAdFault "u" "t" videoAndPayloadDoc 9 "boom" "stack").advertiser_name =
      (processAd "u" "t" videoAndPayloadDoc).advertiser_name ∧
    (processAdFault "u" "t" videoAndPayloadDoc 9 "boom" "stack").library_id =
      (processAd "u" "t" videoAndPayloadDoc).library_id ∧
    (processAdFault "u" "t" videoAndPayloadDoc 9 "boom" "stack").creative_url =
      (processAd "u" "t" videoAndPayloadDoc).creative_url := by
  obtain ⟨h1, h2, h3, _, _, h4, _, _, _, _, _, _⟩ :=
    fault_retains_populated_fields "u" "t" videoAndPayloadDoc 9 "boom" "stack"
  exact ⟨h1 (by decide), h2 (by decide), h3 (by decide), h4 (by decide)⟩

/-- C7: when the inline link payload is absent and a redirect anchor is
present, the CTA tier parses it as a URL and returns the decoded
redirect-target parameter; when URL parsing throws, the failure is swallowed
at the strategy boundary and the chain falls through to the external-anchor
tier, with the record still finalized as SUCCESS. -/
theorem cta_redirect_decode_or_fallthrough (u n : String) (d : Doc) (link : String)
    (h1 : jsonCaptures "link_url" d.bodyHtml = [])
    (h2 : firstRedirectAnchor d = some link) :
    (∀ uo t, parseURL link = some uo → searchGet uo "u" = some t → t ≠ "" →
      (processAd u n d).cta_url = some t) ∧
    (parseURL link = none →
      (processAd u n d).cta_url = firstExternalAnchor d ∧
      (processAd u n d).status = some "SUCCESS") := by
  have hsub : substrOf "l.facebook.com/l.php" link = true := by
    unfold firstRedirectAnchor at h2
    exact filter_head?_pred h2
  have hne : link ≠ "" := by
    intro he
    rw [he] at hsub
    exact absurd hsub (by decide)
  have e1 : ctaPat1 d none = none := by simp [ctaPat1, h1]
  constructor
  · intro uo t hp hs hts
    show ctaChain d = some t
    unfold ctaChain
    rw [e1]
    have e2 : ctaPat2 d none = some t := by
      unfold ctaPat2
      rw [h2]
      simp [truthy, hne, hp, hs, hts]
    rw [e2]
    have e3 : ctaPat3 d (some t) = some t := by
      unfold ctaPat3
      simp [truthy, hts]
    rw [e3]
    simp [ctaDefault, truthy, hts]
  · intro hp
    refine ⟨?_, rfl⟩
    show ctaChain d = firstExternalAnchor d
    unfold ctaChain
    rw [e1]
    have e2 : ctaPat2 d none = none := by
      unfold ctaPat2
      rw [h2]
      simp [truthy, hne, hp]
    rw [e2]
    unfold ctaPat3
    rcases hE : firstExternalAnchor d with _ | e
    · simp [truthy, ctaDefault]
    · unfold firstExternalAnchor at hE
      have hpe := filter_head?_pred hE
      have hene : e ≠ "" := by
        intro he
        rw [he] at hpe
        exact absurd hpe (by decide)
      simp [truthy, ctaDefault, hene]

/-- C7 witness: the spec example, an outbound-redirect anchor whose target
parameter decodes to the external URL. -/
theorem cta_redirect_decode_witness :
    (processAd "u" "t" redirectDoc).cta_url = some "https://example.com/path" := by
  have h := cta_redirect_decode_or_fallthrough "u" "t" redirectDoc
    "https://l.facebook.com/l.php?u=https%3A%2F%2Fexample.com%2Fpath&h=AT0x" rfl rfl
  exact h.1
    (URLObj.mk "l.facebook.com" [("u", "https://example.com/path"), ("h", "AT0x")])
    "https://example.com/path" (by decide) (by decide) (by decide)

/-- Comparator following the wording of the specification for C8: strip
only a LEADING "www." label from the hostname (this is NOT what the code
computes; the code removes the first occurrence anywhere). -/
def specStripLeadingWww (host : String) : String :=
  if "www.".data.isPrefixOf host.data then String.mk (host.data.drop 4) else host

/-- C8 counterexample: for a CTA URL whose hostname carries only a
non-leading "www." label, the record strips that inner label, while
stripping only a leading label would leave the hostname unchanged. -/
theorem cta_domain_strips_inner_www :
    (processAd "u" "t" innerWwwDoc).cta_url = some "https://foo.www.example.com/x" ∧
    parseURL "https://foo.www.example.com/x" = some (URLObj.mk "foo.www.example.com" []) ∧
    specStripLeadingWww "foo.www.example.com" = "foo.www.example.com" ∧
    (processAd "u" "t" innerWwwDoc).cta_domain = some "foo.example.com" ∧
    (processAd "u" "t" innerWwwDoc).cta_domain ≠
      some (specStripLeadingWww "foo.www.example.com") := by
  decide

/-- C8 amended: whenever a CTA URL was found, the CTA domain is the parsed
hostname with the FIRST occurrence of "www." removed (which coincides with
stripping a leading label when the hostname starts with it); an unparseable
CTA URL yields an absent domain and the record still finalizes as SUCCESS. -/
theorem cta_domain_removes_first_www (u n : String) (d : Doc) (cu : String)
    (h : (processAd u n d).cta_url = some cu) :
    (∀ uo, parseURL cu = some uo →
      (processAd u n d).cta_domain = some (stripWwwFirst uo.hostname)) ∧
    (parseURL cu = none →
      (processAd u n d).cta_domain = none ∧ (processAd u n d).status = some "SUCCESS") := by
  have hc : ctaChain d = some cu := h
  have hne : cu ≠ "" := ctaChain_some_ne_empty hc
  constructor
  · intro uo hp
    show ctaDomainOf (ctaChain d) = some (stripWwwFirst uo.hostname)
    rw [hc]
    simp [ctaDomainOf, hne, hp]
  · intro hp
    refine ⟨?_, rfl⟩
    show ctaDomainOf (ctaChain d) = none
    rw [hc]
    simp [ctaDomainOf, hne, hp]

/-- C8 amended, witness: the inner "www." label is removed on the concrete
page. -/
theorem cta_domain_removes_first_www_witness :
    (processAd "u" "t" innerWwwDoc).cta_domain =
      some (stripWwwFirst "foo.www.example.com") := by
  have h := cta_domain_removes_first_www "u" "t" innerWwwDoc
    "https://foo.www.example.com/x" (by decide)
  exact h.1 (URLObj.mk "foo.www.example.com" []) (by decide)

end AdsArchive
